import Mathlib

/-!
Verification of the BDLS configuration validation and TCP peer layer

Shallow embedding of `config.go` (package `consensus`) and the `TCPPeer`
part of the agent transport (package `agent`), with theorems about
`VerifyConfig`, `NewTCPPeer`, `TCPPeer.Send`, `TCPPeer.notifyPending`
and `TCPPeer.GetPublicKey`.

Go pointers and nil-able function fields are embedded as `Option`;
byte slices as `List Nat`; `time.Time` as a wall-clock pair whose
`IsZero` tests both components; channels of capacity `k` holding unit
values as a counter bounded by `k`.
-/

namespace BDLS

/-- Go `type State []byte`: an opaque application state, a byte slice. -/
abbrev State := List Nat

/-- A fixed-size digest returned by the host hasher (`type StateHash`). -/
abbrev Digest := List Nat

/-- An ECDSA public key (`*ecdsa.PublicKey` target), reduced to its coordinates. -/
structure PublicKey where
  X : Int
  Y : Int
deriving DecidableEq, Repr

/-- An ECDSA private key (`*ecdsa.PrivateKey` target), reduced to its scalar. -/
structure PrivateKey where
  D : Int
deriving DecidableEq, Repr

/-- Go `time.Time`, reduced to the pair of fields that `IsZero` inspects. -/
structure Time where
  sec : Int
  nsec : Int
deriving DecidableEq, Repr

/-- Go `time.Time.IsZero`: true exactly on the zero time instant. -/
def Time.IsZero (t : Time) : Bool :=
  t.sec == 0 && t.nsec == 0

/-- Constant ConfigMinimumParticipants from config.go: the minimum number of
participants allowed in the consensus protocol. -/
def ConfigMinimumParticipants : Nat := 4

/-- The configuration errors returned by `VerifyConfig` (declared in the
repository's error list; only their distinctness matters here). -/
inductive ConsensusError where
  | ErrConfigEpoch
  | ErrConfigStateNil
  | ErrConfigLess
  | ErrConfigValidateState
  | ErrConfigPrivateKey
  | ErrConfigParticipants
deriving DecidableEq, Repr

/-- Structure Config from config.go: the parameters of the BDLS consensus
protocol.  Nil-able Go fields (`CurrentState []byte`-backed `State`,
`*ecdsa.PrivateKey`, and the three function fields) become `Option`s;
`Participants []*ecdsa.PublicKey` is a list of nil-able pointers. -/
structure Config where
  Epoch : Time
  CurrentHeight : Nat
  CurrentState : Option State
  PrivateKey : Option PrivateKey
  Participants : List (Option PublicKey)
  StateCompare : Option (State → State → Int)
  StateValidate : Option (State → Bool)
  StateHash : Option (State → Digest)

/-- Function VerifyConfig from config.go: verifies the integrity of a config
when creating a new consensus object.  Each `return Err…` becomes
`some .Err…`; the final `return nil` becomes `none`. -/
def VerifyConfig (c : Config) : Option ConsensusError :=
  if c.Epoch.IsZero then some .ErrConfigEpoch
  else if c.CurrentState.isNone then some .ErrConfigStateNil
  else if c.StateCompare.isNone then some .ErrConfigLess
  else if c.StateValidate.isNone then some .ErrConfigValidateState
  else if c.PrivateKey.isNone then some .ErrConfigPrivateKey
  else if c.Participants.length < ConfigMinimumParticipants then some .ErrConfigParticipants
  else none

/-- State-passing form of `VerifyConfig`: the Go function receives
`c *Config` and each of its return sites leaves the pointed-to struct
exactly as it found it (the body contains no assignment through `c`),
so every branch pairs its result with the unchanged config. -/
def VerifyConfigSt (c : Config) : Option ConsensusError × Config :=
  if c.Epoch.IsZero then (some .ErrConfigEpoch, c)
  else if c.CurrentState.isNone then (some .ErrConfigStateNil, c)
  else if c.StateCompare.isNone then (some .ErrConfigLess, c)
  else if c.StateValidate.isNone then (some .ErrConfigValidateState, c)
  else if c.PrivateKey.isNone then (some .ErrConfigPrivateKey, c)
  else if c.Participants.length < ConfigMinimumParticipants then (some .ErrConfigParticipants, c)
  else (none, c)

/-- The ordered list of checks performed by `VerifyConfig`, each paired
with the error it raises, in source order. -/
def configChecks (c : Config) : List (Bool × ConsensusError) :=
  [ (c.Epoch.IsZero, .ErrConfigEpoch),
    (c.CurrentState.isNone, .ErrConfigStateNil),
    (c.StateCompare.isNone, .ErrConfigLess),
    (c.StateValidate.isNone, .ErrConfigValidateState),
    (c.PrivateKey.isNone, .ErrConfigPrivateKey),
    (decide (c.Participants.length < ConfigMinimumParticipants), .ErrConfigParticipants) ]

end BDLS

namespace Agent

/-- A network address (`net.Addr`), reduced to a printable form. -/
abbrev Addr := Nat

/-- A `net.Conn`, reduced to the one capability the peer uses: its
remote address. -/
structure Conn where
  remoteAddr : Addr
deriving DecidableEq, Repr

/-- A message payload (`[]byte`). -/
abbrev Bytes := List Nat

/-- Structure TCPPeer from the agent transport: the connection, the optional
authenticated public key, the pending output queue, the pending-data
notification channel (capacity and current occupancy), and the death
channel (closed flag).  The mutex serializes access and is not part of
the data. -/
structure TCPPeer where
  conn : Conn
  publicKey : Option BDLS.PublicKey
  pending : List Bytes
  chPendingCap : Nat
  chPendingCount : Nat
  dieClosed : Bool

/-- Function NewTCPPeer from the agent transport: `new(TCPPeer)` zeroes every
field (nil public key, nil pending slice), then the constructor sets
`chPending = make(chan struct{}, 1)`, the connection, and an open `die`
channel. -/
def NewTCPPeer (conn : Conn) : TCPPeer :=
  { conn := conn
    publicKey := none
    pending := []
    chPendingCap := 1
    chPendingCount := 0
    dieClosed := false }

/-- Method GetPublicKey: returns the peer's public key as identity. -/
def TCPPeer.GetPublicKey (p : TCPPeer) : Option BDLS.PublicKey :=
  p.publicKey

/-- Method RemoteAddr: returns the peer's address as identity. -/
def TCPPeer.RemoteAddr (p : TCPPeer) : Addr :=
  p.conn.remoteAddr

/-- Method notifyPending: `select` with a send on `chPending` and a
`default` branch — the send succeeds exactly when the channel is below
capacity, otherwise the call falls through and returns at once. -/
def TCPPeer.notifyPending (p : TCPPeer) : TCPPeer :=
  if p.chPendingCount < p.chPendingCap then
    { p with chPendingCount := p.chPendingCount + 1 }
  else
    p

/-- Method Send: appends the message to the pending queue, notifies,
and returns nil. -/
def TCPPeer.Send (p : TCPPeer) (out : Bytes) : TCPPeer × Option Unit :=
  let p := { p with pending := p.pending ++ [out] }
  let p := p.notifyPending
  (p, none)

/-- A sequence of `Send` calls with no consumer draining the queue. -/
def sendAll (p : TCPPeer) (msgs : List Bytes) : TCPPeer :=
  msgs.foldl (fun q m => (q.Send m).1) p

/-- Iterated `notifyPending` with no consumer draining the channel. -/
def notifyN (p : TCPPeer) : Nat → TCPPeer
  | 0 => p
  | n + 1 => (notifyN p n).notifyPending

end Agent

namespace BDLS

/-- A trivial host comparator, for concrete test configs. -/
def demoCompare : State → State → Int := fun _ _ => 0

/-- A trivial host validator, for concrete test configs. -/
def demoValidate : State → Bool := fun _ => true

/-- A trivial host hasher, for concrete test configs. -/
def demoHash : State → Digest := fun _ => []

/-- A concrete public key used to populate participant lists. -/
def demoKey : PublicKey := { X := 1, Y := 2 }

/-- A fully valid concrete config: non-zero epoch, non-nil state,
comparator, validator, hasher and private key present, 4 participants. -/
def goodConfig : Config :=
  { Epoch := { sec := 1, nsec := 0 }
    CurrentHeight := 0
    CurrentState := some []
    PrivateKey := some { D := 3 }
    Participants := [some demoKey, some demoKey, some demoKey, some demoKey]
    StateCompare := some demoCompare
    StateValidate := some demoValidate
    StateHash := some demoHash }

/-- Same as `goodConfig` except the hasher is absent (nil `StateHash`). -/
def noHashConfig : Config :=
  { goodConfig with StateHash := none }

/-- Same as `goodConfig` except only 3 participants. -/
def threeConfig : Config :=
  { goodConfig with Participants := [some demoKey, some demoKey, some demoKey] }

/-- Same as `goodConfig` except the epoch is the zero time and the
private key is also absent (two invalid fields at once). -/
def epochZeroNoKeyConfig : Config :=
  { goodConfig with Epoch := { sec := 0, nsec := 0 }, PrivateKey := none }

end BDLS

namespace Agent

/-- A concrete peer whose notification channel is full (occupancy at
capacity), for exercising the coalescing branch. -/
def fullChannelPeer : TCPPeer :=
  { conn := { remoteAddr := 0 }
    publicKey := none
    pending := []
    chPendingCap := 1
    chPendingCount := 1
    dieClosed := false }

end Agent

namespace BDLS

/-- Helper: the result component of `VerifyConfigSt` agrees with
`VerifyConfig`. -/
theorem VerifyConfigSt_fst (c : Config) :
    (VerifyConfigSt c).1 = VerifyConfig c := by
  unfold VerifyConfigSt VerifyConfig
  repeat' split
  all_goals rfl

/-- Helper: the config component of `VerifyConfigSt` is the input. -/
theorem VerifyConfigSt_snd (c : Config) :
    (VerifyConfigSt c).2 = c := by
  unfold VerifyConfigSt
  repeat' split
  all_goals rfl

end BDLS

namespace Agent

/-- Helper: `notifyPending` never touches the pending queue. -/
theorem TCPPeer.notifyPending_pending (p : TCPPeer) :
    p.notifyPending.pending = p.pending := by
  unfold TCPPeer.notifyPending
  split <;> rfl

/-- Helper: `notifyPending` never touches the public key. -/
theorem TCPPeer.notifyPending_publicKey (p : TCPPeer) :
    p.notifyPending.publicKey = p.publicKey := by
  unfold TCPPeer.notifyPending
  split <;> rfl

/-- Helper: `notifyPending` never touches the channel capacity. -/
theorem TCPPeer.notifyPending_cap (p : TCPPeer) :
    p.notifyPending.chPendingCap = p.chPendingCap := by
  unfold TCPPeer.notifyPending
  split <;> rfl

/-- Helper: one `Send` appends its message to the pending queue. -/
theorem TCPPeer.Send_pending (p : TCPPeer) (out : Bytes) :
    (p.Send out).1.pending = p.pending ++ [out] := by
  unfold TCPPeer.Send
  rw [TCPPeer.notifyPending_pending]

/-- Helper: one `Send` never touches the public key. -/
theorem TCPPeer.Send_publicKey (p : TCPPeer) (out : Bytes) :
    (p.Send out).1.publicKey = p.publicKey := by
  unfold TCPPeer.Send
  rw [TCPPeer.notifyPending_publicKey]

/-- Helper: a sequence of `Send` calls appends the messages in order. -/
theorem sendAll_pending (p : TCPPeer) (msgs : List Bytes) :
    (sendAll p msgs).pending = p.pending ++ msgs := by
  induction msgs generalizing p with
  | nil => simp [sendAll]
  | cons m rest ih =>
      show (sendAll ((p.Send m).1) rest).pending = p.pending ++ (m :: rest)
      rw [ih, TCPPeer.Send_pending, List.append_assoc]
      rfl

/-- Helper: a sequence of `Send` calls never touches the public key. -/
theorem sendAll_publicKey (p : TCPPeer) (msgs : List Bytes) :
    (sendAll p msgs).publicKey = p.publicKey := by
  induction msgs generalizing p with
  | nil => rfl
  | cons m rest ih =>
      show (sendAll ((p.Send m).1) rest).publicKey = p.publicKey
      rw [ih, TCPPeer.Send_publicKey]

/-- Helper: iterated notification preserves the channel capacity. -/
theorem notifyN_cap (p : TCPPeer) (n : Nat) :
    (notifyN p n).chPendingCap = p.chPendingCap := by
  induction n with
  | zero => rfl
  | succ k ih => rw [notifyN, TCPPeer.notifyPending_cap, ih]

/-- Helper: the channel occupancy of a fresh peer after n notifications
is min n 1 (the channel has capacity one and nobody drains it). -/
theorem notifyN_count_fresh (conn : Conn) (n : Nat) :
    (notifyN (NewTCPPeer conn) n).chPendingCount = min n 1 := by
  induction n with
  | zero => rfl
  | succ k ih =>
      rw [notifyN]
      unfold TCPPeer.notifyPending
      rw [notifyN_cap, ih]
      have hc : (NewTCPPeer conn).chPendingCap = 1 := rfl
      rw [hc]
      by_cases h : min k 1 < 1
      · rw [if_pos h]
        show min k 1 + 1 = min (k + 1) 1
        omega
      · rw [if_neg h, ih]
        omega

end Agent

/-- C1: the claim asserts that a config with every field valid except a
nil `StateHash` is rejected by `VerifyConfig`.  This closed theorem
exhibits such a config that `VerifyConfig` accepts: `noHashConfig` has a
non-zero epoch, non-nil state, comparator, validator and private key,
four participants, a nil hasher — and `VerifyConfig` returns nil. -/
theorem VerifyConfig_nilHasher_accepted :
    BDLS.noHashConfig.StateHash.isNone = true ∧
    BDLS.noHashConfig.Epoch.IsZero = false ∧
    BDLS.noHashConfig.CurrentState.isNone = false ∧
    BDLS.noHashConfig.StateCompare.isNone = false ∧
    BDLS.noHashConfig.StateValidate.isNone = false ∧
    BDLS.noHashConfig.PrivateKey.isNone = false ∧
    BDLS.ConfigMinimumParticipants ≤ BDLS.noHashConfig.Participants.length ∧
    BDLS.VerifyConfig BDLS.noHashConfig = none := by
  refine ⟨rfl, rfl, rfl, rfl, rfl, rfl, ?_, rfl⟩
  decide

/-- C1 (amended): `VerifyConfig` never inspects `StateHash`; a config
whose hasher is nil but whose other checked fields are all valid passes
`VerifyConfig` (returns nil). -/
theorem VerifyConfig_skips_stateHash (c : BDLS.Config)
    (hE : c.Epoch.IsZero = false)
    (hS : c.CurrentState.isNone = false)
    (hC : c.StateCompare.isNone = false)
    (hV : c.StateValidate.isNone = false)
    (hP : c.PrivateKey.isNone = false)
    (hN : ¬ c.Participants.length < BDLS.ConfigMinimumParticipants)
    (_hH : c.StateHash.isNone = true) :
    BDLS.VerifyConfig c = none := by
  simp [BDLS.VerifyConfig, hE, hS, hC, hV, hP, hN]

/-- C1 witness: the amended theorem applied to the concrete config. -/
theorem VerifyConfig_skips_stateHash_witness :
    BDLS.VerifyConfig BDLS.noHashConfig = none :=
  VerifyConfig_skips_stateHash BDLS.noHashConfig rfl rfl rfl rfl rfl
    (by decide) rfl

/-- C2: with epoch, state, comparator, validator and private key all
valid, `VerifyConfig` errors exactly when the participant count is
below 4, the error is `ErrConfigParticipants`, a 3-participant config
fails with that error, and a 4-participant config passes. -/
theorem VerifyConfig_participants_minimum (c : BDLS.Config)
    (hE : c.Epoch.IsZero = false)
    (hS : c.CurrentState.isNone = false)
    (hC : c.StateCompare.isNone = false)
    (hV : c.StateValidate.isNone = false)
    (hP : c.PrivateKey.isNone = false) :
    ((BDLS.VerifyConfig c).isSome = true ↔ c.Participants.length < 4) ∧
    (c.Participants.length < 4 →
      BDLS.VerifyConfig c = some BDLS.ConsensusError.ErrConfigParticipants) ∧
    (c.Participants.length = 3 →
      BDLS.VerifyConfig c = some BDLS.ConsensusError.ErrConfigParticipants) ∧
    (c.Participants.length = 4 → BDLS.VerifyConfig c = none) := by
  by_cases h : c.Participants.length < 4 <;>
    simp [BDLS.VerifyConfig, BDLS.ConfigMinimumParticipants,
      hE, hS, hC, hV, hP, h] <;>
    omega

/-- C2 witness: 3 participants fail with `ErrConfigParticipants`, 4
participants pass. -/
theorem VerifyConfig_participants_minimum_witness :
    BDLS.VerifyConfig BDLS.threeConfig =
      some BDLS.ConsensusError.ErrConfigParticipants ∧
    BDLS.VerifyConfig BDLS.goodConfig = none :=
  ⟨(VerifyConfig_participants_minimum BDLS.threeConfig
      rfl rfl rfl rfl rfl).2.2.1 rfl,
   (VerifyConfig_participants_minimum BDLS.goodConfig
      rfl rfl rfl rfl rfl).2.2.2 rfl⟩

/-- C3: each failing field yields its own distinct error — zero epoch
gives `ErrConfigEpoch`; with the earlier checks passing, nil state gives
`ErrConfigStateNil`, nil comparator `ErrConfigLess`, nil validator
`ErrConfigValidateState`, nil key `ErrConfigPrivateKey`, fewer than 4
participants `ErrConfigParticipants`; all six conditions holding gives
nil; and the six errors are pairwise distinct. -/
theorem VerifyConfig_each_field_error (c : BDLS.Config) :
    (c.Epoch.IsZero = true →
      BDLS.VerifyConfig c = some BDLS.ConsensusError.ErrConfigEpoch) ∧
    (c.Epoch.IsZero = false → c.CurrentState.isNone = true →
      BDLS.VerifyConfig c = some BDLS.ConsensusError.ErrConfigStateNil) ∧
    (c.Epoch.IsZero = false → c.CurrentState.isNone = false →
      c.StateCompare.isNone = true →
      BDLS.VerifyConfig c = some BDLS.ConsensusError.ErrConfigLess) ∧
    (c.Epoch.IsZero = false → c.CurrentState.isNone = false →
      c.StateCompare.isNone = false → c.StateValidate.isNone = true →
      BDLS.VerifyConfig c = some BDLS.ConsensusError.ErrConfigValidateState) ∧
    (c.Epoch.IsZero = false → c.CurrentState.isNone = false →
      c.StateCompare.isNone = false → c.StateValidate.isNone = false →
      c.PrivateKey.isNone = true →
      BDLS.VerifyConfig c = some BDLS.ConsensusError.ErrConfigPrivateKey) ∧
    (c.Epoch.IsZero = false → c.CurrentState.isNone = false →
      c.StateCompare.isNone = false → c.StateValidate.isNone = false →
      c.PrivateKey.isNone = false → c.Participants.length < 4 →
      BDLS.VerifyConfig c = some BDLS.ConsensusError.ErrConfigParticipants) ∧
    (c.Epoch.IsZero = false → c.CurrentState.isNone = false →
      c.StateCompare.isNone = false → c.StateValidate.isNone = false →
      c.PrivateKey.isNone = false → ¬ c.Participants.length < 4 →
      BDLS.VerifyConfig c = none) ∧
    List.Nodup [BDLS.ConsensusError.ErrConfigEpoch,
      BDLS.ConsensusError.ErrConfigStateNil,
      BDLS.ConsensusError.ErrConfigLess,
      BDLS.ConsensusError.ErrConfigValidateState,
      BDLS.ConsensusError.ErrConfigPrivateKey,
      BDLS.ConsensusError.ErrConfigParticipants] := by
  refine ⟨fun h1 => by simp [BDLS.VerifyConfig, h1],
    fun h1 h2 => by simp [BDLS.VerifyConfig, h1, h2],
    fun h1 h2 h3 => by simp [BDLS.VerifyConfig, h1, h2, h3],
    fun h1 h2 h3 h4 => by simp [BDLS.VerifyConfig, h1, h2, h3, h4],
    fun h1 h2 h3 h4 h5 => by simp [BDLS.VerifyConfig, h1, h2, h3, h4, h5],
    fun h1 h2 h3 h4 h5 h6 => by
      simp [BDLS.VerifyConfig, BDLS.ConfigMinimumParticipants,
        h1, h2, h3, h4, h5, h6],
    fun h1 h2 h3 h4 h5 h6 => by
      simp [BDLS.VerifyConfig, BDLS.ConfigMinimumParticipants,
        h1, h2, h3, h4, h5, h6],
    by decide⟩

/-- C3 witness: a config with zero epoch (and nil key) yields
`ErrConfigEpoch`; the fully valid config yields nil. -/
theorem VerifyConfig_each_field_error_witness :
    BDLS.VerifyConfig BDLS.epochZeroNoKeyConfig =
      some BDLS.ConsensusError.ErrConfigEpoch ∧
    BDLS.VerifyConfig BDLS.goodConfig = none :=
  ⟨(VerifyConfig_each_field_error BDLS.epochZeroNoKeyConfig).1 rfl,
   (VerifyConfig_each_field_error BDLS.goodConfig).2.2.2.2.2.2.1
      rfl rfl rfl rfl rfl (by decide)⟩

/-- C8: `VerifyConfig` returns exactly the error of the first failing
check in the fixed source order Epoch, CurrentState, StateCompare,
StateValidate, PrivateKey, Participants, and nil when none fails. -/
theorem VerifyConfig_first_failing_check (c : BDLS.Config) :
    BDLS.VerifyConfig c =
      ((BDLS.configChecks c).find? (fun p => p.1)).map (fun p => p.2) := by
  unfold BDLS.VerifyConfig BDLS.configChecks
  cases hE : c.Epoch.IsZero <;>
  cases hS : c.CurrentState.isNone <;>
  cases hC : c.StateCompare.isNone <;>
  cases hV : c.StateValidate.isNone <;>
  cases hP : c.PrivateKey.isNone <;>
  by_cases hN : c.Participants.length < BDLS.ConfigMinimumParticipants <;>
  simp [hE, hS, hC, hV, hP, hN, List.find?]

/-- C10: `VerifyConfig` is read-only and deterministic — the
state-passing form returns the config with every field unchanged, and a
second call on the returned config gives the same result. -/
theorem VerifyConfig_read_only (c : BDLS.Config) :
    (BDLS.VerifyConfigSt c).2 = c ∧
    (BDLS.VerifyConfigSt c).2.Epoch = c.Epoch ∧
    (BDLS.VerifyConfigSt c).2.CurrentHeight = c.CurrentHeight ∧
    (BDLS.VerifyConfigSt c).2.CurrentState = c.CurrentState ∧
    (BDLS.VerifyConfigSt c).2.PrivateKey = c.PrivateKey ∧
    (BDLS.VerifyConfigSt c).2.Participants = c.Participants ∧
    (BDLS.VerifyConfigSt c).2.StateCompare = c.StateCompare ∧
    (BDLS.VerifyConfigSt c).2.StateValidate = c.StateValidate ∧
    (BDLS.VerifyConfigSt c).2.StateHash = c.StateHash ∧
    (BDLS.VerifyConfigSt ((BDLS.VerifyConfigSt c).2)).1 =
      (BDLS.VerifyConfigSt c).1 := by
  rw [BDLS.VerifyConfigSt_snd c]
  simp

/-- C4: the claim asserts a fixed bound B on the pending queue length
under arbitrary `Send` sequences with no consumer.  This theorem
refutes it: for every candidate bound, sending that many messages plus
one to a fresh peer makes the queue longer. -/
theorem Send_queue_not_bounded :
    ¬ ∃ B : Nat, ∀ (conn : Agent.Conn) (msgs : List Agent.Bytes),
        ((Agent.sendAll (Agent.NewTCPPeer conn) msgs).pending).length ≤ B := by
  rintro ⟨B, hB⟩
  have h := hB { remoteAddr := 0 } (List.replicate (B + 1) [])
  rw [Agent.sendAll_pending] at h
  simp [Agent.NewTCPPeer] at h

/-- C4 (amended): the pending queue is unbounded — every `Send` appends
its message and never drops, coalesces or blocks, so a sequence of
sends with no consumer leaves exactly the old queue followed by the
sent messages, and each `Send` returns nil.  Only the notification
channel (capacity 1) coalesces. -/
theorem Send_queue_unbounded_append (p : Agent.TCPPeer)
    (msgs : List Agent.Bytes) (out : Agent.Bytes) :
    (Agent.sendAll p msgs).pending = p.pending ++ msgs ∧
    (p.Send out).2 = none :=
  ⟨Agent.sendAll_pending p msgs, rfl⟩

/-- C5: `Send` always enqueues the message (appends it to the pending
queue) and returns nil; it never fails. -/
theorem Send_appends_returns_nil (p : Agent.TCPPeer) (out : Agent.Bytes) :
    (p.Send out).1.pending = p.pending ++ [out] ∧ (p.Send out).2 = none :=
  ⟨Agent.TCPPeer.Send_pending p out, rfl⟩

/-- C6: per-peer FIFO — `Send a` then `Send b` leaves the pending queue
equal to the old queue followed by a then b; previously enqueued
messages are neither reordered nor displaced. -/
theorem Send_fifo_order (p : Agent.TCPPeer) (a b : Agent.Bytes) :
    (((p.Send a).1).Send b).1.pending = p.pending ++ [a, b] := by
  rw [Agent.TCPPeer.Send_pending, Agent.TCPPeer.Send_pending,
    List.append_assoc]
  rfl

/-- C7: the notifier coalesces and never blocks — the channel made by
`NewTCPPeer` has capacity 1; any positive number of consecutive
`notifyPending` calls on a fresh peer with no consumer leaves exactly
one queued notification; and a call finding the channel full returns
the peer unchanged. -/
theorem notifyPending_coalesces (conn : Agent.Conn) :
    (Agent.NewTCPPeer conn).chPendingCap = 1 ∧
    (∀ n : Nat, 0 < n →
      (Agent.notifyN (Agent.NewTCPPeer conn) n).chPendingCount = 1) ∧
    (∀ p : Agent.TCPPeer, p.chPendingCap ≤ p.chPendingCount →
      p.notifyPending = p) := by
  refine ⟨rfl, fun n hn => ?_, fun p hp => ?_⟩
  · rw [Agent.notifyN_count_fresh]
    omega
  · unfold Agent.TCPPeer.notifyPending
    rw [if_neg (Nat.not_lt.mpr hp)]

/-- C7 witness: three consecutive notifications on a fresh peer queue
exactly one; a full channel is left unchanged. -/
theorem notifyPending_coalesces_witness :
    (Agent.notifyN (Agent.NewTCPPeer { remoteAddr := 0 }) 3).chPendingCount = 1 ∧
    Agent.fullChannelPeer.notifyPending = Agent.fullChannelPeer :=
  ⟨(notifyPending_coalesces { remoteAddr := 0 }).2.1 3 (by decide),
   (notifyPending_coalesces { remoteAddr := 0 }).2.2 Agent.fullChannelPeer
      (by decide)⟩

/-- C9: a fresh peer is unauthenticated — `NewTCPPeer` leaves the
public key nil, `GetPublicKey` returns nil on it, `Send` never changes
the public key, and any sequence of sends on a fresh peer still reports
a nil public key. -/
theorem NewTCPPeer_unauthenticated (conn : Agent.Conn) :
    (Agent.NewTCPPeer conn).publicKey = none ∧
    (Agent.NewTCPPeer conn).GetPublicKey = none ∧
    (∀ (p : Agent.TCPPeer) (out : Agent.Bytes),
      (p.Send out).1.GetPublicKey = p.GetPublicKey) ∧
    (∀ msgs : List Agent.Bytes,
      (Agent.sendAll (Agent.NewTCPPeer conn) msgs).GetPublicKey = none) := by
  refine ⟨rfl, rfl, fun p out => ?_, fun msgs => ?_⟩
  · show (p.Send out).1.publicKey = p.publicKey
    exact Agent.TCPPeer.Send_publicKey p out
  · show (Agent.sendAll (Agent.NewTCPPeer conn) msgs).publicKey = none
    rw [Agent.sendAll_publicKey]
    rfl
